import Mathlib

/-!
Verification of the report-generation pipeline of the `franja` repository
(`src/utils/excel_generator.py`, class `ExcelReportGenerator`).

The pipeline is shallowly embedded: Python scalar cell values become the
`Scalar` type, the pandas date pass and the openpyxl cell writes become pure
functions on lists, and the file-system interaction of the generator methods
becomes explicit state passing over an association list of paths.  Styling
attributes that no theorem mentions (fonts, fills, borders) are omitted from
the cell model; value, data type, number format, alignment and column widths
are modelled.
-/

namespace Franja

/-- A finite float value, modelled as the decimal scaled integer
`mantissa / 10 ^ scale`.  Every float the pipeline meets is a monetary
amount originating from a decimal source value, so the decimal family is
exact for them; the pipeline performs no float arithmetic — it only tests
a float for truthiness and renders it as a string. -/
structure DecFloat where
  mantissa : Int
  scale : Nat
deriving DecidableEq

/-- A Python scalar cell value as it appears in a query-result row:
`None`, a string, an integer, a finite float, or the float `nan` (which
pandas produces for `NaT` under `Series.dt.strftime`). -/
inductive Scalar where
  | null : Scalar
  | str : String → Scalar
  | int : Int → Scalar
  | num : DecFloat → Scalar
  | nan : Scalar
deriving DecidableEq

/-- Decimal digit character. -/
def digitChar (n : Nat) : Char := Char.ofNat (48 + n % 10)

/-- Fuel-driven accumulation of the decimal digits of `n` (most significant
first).  The fuel is always at least the digit count when called from
`natToDec`, so the result is the full decimal expansion. -/
def natToDecAux : Nat → Nat → List Char → List Char
  | 0, _, acc => acc
  | _ + 1, 0, acc => acc
  | fuel + 1, n, acc => natToDecAux fuel (n / 10) (digitChar (n % 10) :: acc)

/-- Decimal rendering of a natural number (Python `str` of a nonnegative
integer). -/
def natToDec (n : Nat) : String :=
  if n = 0 then "0" else ⟨natToDecAux n n []⟩

/-- Decimal rendering of an integer (Python `str` of an `int`). -/
def intToDec (n : Int) : String :=
  if n < 0 then "-" ++ natToDec n.natAbs else natToDec n.natAbs

/-- Left-pad a digit list with `'0'` to the given width. -/
def padZeros (w : Nat) (l : List Char) : List Char :=
  List.replicate (w - l.length) '0' ++ l

/-- Drop trailing `'0'` characters. -/
def dropTrailingZeros (l : List Char) : List Char :=
  (l.reverse.dropWhile fun c => c == '0').reverse

/-- Decimal rendering of a float value (Python `str` of a `float`):
integer part, a dot, then the fractional digits with trailing zeros
trimmed (`".0"` when the value is integral, as Python prints).  Python
renders binary floats by shortest round-trip decimal, which on the decimal
family of `DecFloat` is exactly this expansion.  Only the character length
of this string feeds the column-width computation. -/
def floatStr (f : DecFloat) : String :=
  let sign := if f.mantissa < 0 then "-" else ""
  let a := f.mantissa.natAbs
  let ip := a / 10 ^ f.scale
  let frac := dropTrailingZeros (padZeros f.scale (natToDec (a % 10 ^ f.scale)).data)
  if frac.isEmpty then sign ++ natToDec ip ++ ".0"
  else sign ++ natToDec ip ++ "." ++ ⟨frac⟩

/-- Python `str()` of a scalar: `None → "None"`, strings unchanged,
numbers in decimal, `nan → "nan"`. -/
def pyStr : Scalar → String
  | .null => "None"
  | .str s => s
  | .int n => intToDec n
  | .num q => floatStr q
  | .nan => "nan"

/-- Python truthiness of a scalar: `None`, `""`, `0` and `0.0` are falsy;
`nan` is truthy (`nan != 0` holds in IEEE comparison, so `bool(nan)` is
`True`). -/
def pyTruthy : Scalar → Bool
  | .null => false
  | .str s => !(s == "")
  | .int n => !(n == 0)
  | .num q => !(q.mantissa == 0)
  | .nan => true

/-- Python `isinstance(v, (int, float))`: integers and floats, including
the float `nan`. -/
def isNumericScalar : Scalar → Bool
  | .int _ => true
  | .num _ => true
  | .nan => true
  | _ => false

/-- `p` is a prefix of the second list. -/
def startsWithChars : List Char → List Char → Bool
  | [], _ => true
  | _ :: _, [] => false
  | p :: ps, c :: cs => p == c && startsWithChars ps cs

/-- `tok` occurs as a contiguous sublist (Python `tok in s`). -/
def containsChars (tok : List Char) : List Char → Bool
  | [] => startsWithChars tok []
  | c :: cs => startsWithChars tok (c :: cs) || containsChars tok cs

/-- Lower-cased character list of a column name (Python `name.lower()`;
column names are ASCII). -/
def lowerChars (s : String) : List Char := s.toList.map Char.toLower

/-- Date-like column: `'fecha' in col.lower()`. -/
def isDateCol (name : String) : Bool :=
  containsChars "fecha".toList (lowerChars name)

/-- Numeric-currency column: `'valor' in name.lower() or 'precio' in
name.lower()`. -/
def isCurrencyCol (name : String) : Bool :=
  containsChars "valor".toList (lowerChars name) ||
    containsChars "precio".toList (lowerChars name)

/-- Centered-categorical column: `name.lower() in ['naturaleza_cuenta',
'tipo_empresa']`. -/
def isCenteredCol (name : String) : Bool :=
  lowerChars name == "naturaleza_cuenta".toList ||
    lowerChars name == "tipo_empresa".toList

/-- A calendar date. -/
structure PDate where
  year : Nat
  month : Nat
  day : Nat
deriving DecidableEq

/-- Gregorian leap year. -/
def isLeap (y : Nat) : Bool := (y % 4 == 0 && !(y % 100 == 0)) || y % 400 == 0

/-- Days in a month of a given year. -/
def daysInMonth (y m : Nat) : Nat :=
  if m == 2 then (if isLeap y then 29 else 28)
  else if m == 4 || m == 6 || m == 9 || m == 11 then 30
  else 31

/-- Parse a nonempty all-digit chunk as a natural number. -/
def decDigitsAux : List Char → Nat → Option Nat
  | [], acc => some acc
  | c :: cs, acc =>
    if c.isDigit then decDigitsAux cs (acc * 10 + (c.toNat - 48)) else none

/-- Parse a nonempty all-digit chunk; `none` on the empty chunk or a
non-digit. -/
def decDigits? : List Char → Option Nat
  | [] => none
  | c :: cs => decDigitsAux (c :: cs) 0

/-- Split a character list on `'-'`. -/
def splitDash : List Char → List (List Char)
  | [] => [[]]
  | c :: cs =>
    if c == '-' then [] :: splitDash cs
    else
      match splitDash cs with
      | [] => [[c]]
      | g :: gs => (c :: g) :: gs

/-- Parse a strict ISO `YYYY-MM-DD` string — exactly four year digits and
one or two month and day digits — as a calendar date, validating the month
and the day against the month length.  Two-digit-year strings such as
`"99-01-05"` (which pandas hands to dateutil and reads as 1999) are outside
this strict family and parse to `none`. -/
def parseISODate (s : String) : Option PDate :=
  match splitDash s.toList with
  | [ys, ms, ds] =>
    match decDigits? ys, decDigits? ms, decDigits? ds with
    | some y, some m, some d =>
      if ys.length = 4 ∧ ms.length ≤ 2 ∧ ds.length ≤ 2 ∧
          1 ≤ m ∧ m ≤ 12 ∧ 1 ≤ d ∧ d ≤ daysInMonth y m then
        some ⟨y, m, d⟩
      else none
    | _, _, _ => none
  | _ => none

/-- Models the `pd.to_datetime(..., errors='coerce')` cell conversion of
line 60 on the strict-ISO date-string family, bounded by the pandas
`Timestamp` range: nanosecond timestamps reach only from 1677-09-21 to
2262-04-11, and `errors='coerce'` turns any out-of-range date into `NaT`,
so the model accepts exactly the strict-ISO dates whose whole year lies
inside the range (1678–2261) — a date like `"1500-01-01"` coerces to `none`
here just as pandas coerces it to `NaT`.  `None`, `nan` and unparseable
strings coerce to `none` likewise.  Inputs pandas itself would still parse
— other string formats, two-digit years, bare numbers read as nanosecond
epochs, and the partial boundary years 1677/2262 — map to `none` as well:
there the model under-approximates the parse domain and never claims a
rendered date. -/
def toDatetimeCoerce : Scalar → Option PDate
  | .str s =>
    match parseISODate s with
    | some d => if 1678 ≤ d.year ∧ d.year ≤ 2261 then some d else none
    | none => none
  | _ => none

/-- Zero-padded two-digit field (`strftime` `%d` / `%m`; day and month are
below 100). -/
def pad2 (n : Nat) : String := ⟨[digitChar (n / 10), digitChar (n % 10)]⟩

/-- `strftime('%d/%m/%Y')` on a parsed date.  (`%Y` zero-pads below year
1000; the timestamp range pandas supports starts in 1677, so the plain
decimal year is exact on every representable date.) -/
def strftimeDMY (d : PDate) : String :=
  pad2 d.day ++ "/" ++ pad2 d.month ++ "/" ++ natToDec d.year

/-- The pandas date pass of line 60 on one cell:
`pd.to_datetime(v, errors='coerce').strftime('%d/%m/%Y')`.  A parsed date
becomes its `DD/MM/YYYY` string; everything else becomes `NaT`, which
`Series.dt.strftime` renders as the float `nan` (`na_rep=np.nan` in
pandas), not as the string `'NaT'`. -/
def pandasDateCell (v : Scalar) : Scalar :=
  match toDatetimeCoerce v with
  | some d => .str (strftimeDMY d)
  | none => .nan

/-- A worksheet cell: value, openpyxl data type tag (`"s"` string /
`"n"` numeric-or-empty), number format, and horizontal-center alignment.
Fonts, fills and borders are applied uniformly by the source and are not
modelled. -/
structure Cell where
  value : Scalar
  dataType : String
  numberFormat : String
  centered : Bool
deriving DecidableEq

/-- openpyxl data-type inference on value assignment: strings tag `"s"`,
numbers and `None` tag `"n"`. -/
def inferDataType : Scalar → String
  | .str _ => "s"
  | _ => "n"

/-- A fresh cell holding `None` (openpyxl default: type `"n"`, format
`"General"`, no alignment override). -/
def defaultCell : Cell := ⟨.null, "n", "General", false⟩

/-- The data-writing loop of lines 72-80 on one cell: a date-column cell
is written as `str(v) if v and str(v) != 'NaT' else ''` with its data type
forced to `"s"`; any other cell is written unchanged with the inferred
data type. -/
def writeDataCell (colName : String) (v : Scalar) : Cell :=
  if isDateCol colName then
    { value := .str (if pyTruthy v && !(pyStr v == "NaT") then pyStr v else ""),
      dataType := "s", numberFormat := "General", centered := false }
  else
    { value := v, dataType := inferDataType v,
      numberFormat := "General", centered := false }

/-- `_apply_data_formatting` on one data cell (lines 131-155): date-like
columns re-store the value as text with the explicit text format `"@"`
when the value is truthy and not `'NaT'`; numeric-currency columns tag
truthy numeric values with `'#,##0.00'`; centered-categorical columns set
center alignment. -/
def formatDataCell (colName : String) (cell : Cell) : Cell :=
  if isDateCol colName then
    if pyTruthy cell.value && !(pyStr cell.value == "NaT") then
      { cell with value := .str (pyStr cell.value), dataType := "s",
                  numberFormat := "@" }
    else cell
  else if isCurrencyCol colName then
    if pyTruthy cell.value && isNumericScalar cell.value then
      { cell with numberFormat := "#,##0.00" }
    else cell
  else if isCenteredCol colName then
    { cell with centered := true }
  else cell

/-- The column-width loop of lines 102-116 on the lengths of the rendered
cell strings: `max_length` starts at `0` and is bumped whenever a cell's
`len(str(value))` exceeds it. -/
def maxLenLoop : Nat → List Nat → Nat
  | m, [] => m
  | m, l :: ls => maxLenLoop (if l > m then l else m) ls

/-- Width of one column: the maximum `len(str(cell.value))` over the
header cell and the data cells, then `min(max(max_length + 2, 12), 50)`. -/
def columnWidth (headerName : String) (colCells : List Cell) : Nat :=
  let m := maxLenLoop 0 (headerName.length :: colCells.map fun c => (pyStr c.value).length)
  min (max (m + 2) 12) 50

/-- One rendered data sheet: title, header row, formatted data rows and
per-column widths. -/
structure DataSheet where
  title : String
  header : List String
  rows : List (List Cell)
  widths : List Nat
deriving DecidableEq

/-- `_create_styled_workbook` (lines 41-121) downstream of the DataFrame
construction: the `data` argument stands for the frame's cell values as the
write loop observes them through `df.values` — the dtype inference of the
`pd.DataFrame` call of line 55 is modelled by `pandasFrameValues`, and
`createStyledWorkbook (pandasFrameValues columns data) columns name` is the
whole method on raw query rows (the coercion is the identity on every
string-valued or mixed column, so grids of text cells pass through
unchanged).  Stages, in source order: pandas date pass, manual header and
data writes, column-width computation (run before `_apply_data_formatting`,
as in the source), then per-column formatting.  The returned workbook holds
this single sheet. -/
def createStyledWorkbook (data : List (List Scalar)) (columns : List String)
    (sheetName : String) : DataSheet :=
  let df := data.map fun row =>
    (columns.zip row).map fun p => if isDateCol p.1 then pandasDateCell p.2 else p.2
  let rows0 := df.map fun row =>
    (columns.zip row).map fun p => writeDataCell p.1 p.2
  let widths := (List.range columns.length).map fun j =>
    columnWidth (columns.getD j "") (rows0.map fun r => r.getD j defaultCell)
  let rows1 := rows0.map fun row =>
    (columns.zip row).map fun p => formatDataCell p.1 p.2
  { title := sheetName, header := columns, rows := rows1, widths := widths }

/-- The whole per-cell pipeline for a data cell of column `colName`:
pandas date pass (date columns only), the write loop, then
`_apply_data_formatting`. -/
def renderCell (colName : String) (v : Scalar) : Cell :=
  formatDataCell colName
    (writeDataCell colName (if isDateCol colName then pandasDateCell v else v))

/-- The value stored in a data cell at the time of the width computation:
after the pandas date pass and the write loop of lines 54-80, before
`_apply_data_formatting` runs (the width loop of lines 101-116 sits between
the two). -/
def displayedValue (colName : String) (v : Scalar) : Scalar :=
  (writeDataCell colName (if isDateCol colName then pandasDateCell v else v)).value

/-- A float or the float `nan` (a value forcing float64 column dtype). -/
def isFloatishScalar : Scalar → Bool
  | .num _ => true
  | .nan => true
  | _ => false

/-- An integer value. -/
def isIntScalar : Scalar → Bool
  | .int _ => true
  | _ => false

/-- A `None` value. -/
def isNullScalar : Scalar → Bool
  | .null => true
  | _ => false

/-- `None` or a number — the values a float64 column can absorb. -/
def isNullOrNumLike (v : Scalar) : Bool := isNullScalar v || isNumericScalar v

/-- Column `j` of the row-major grid, as `pd.DataFrame` sees it. -/
def frameColumn (data : List (List Scalar)) (j : Nat) : List Scalar :=
  data.map fun r => r.getD j Scalar.null

/-- pandas dtype inference for one column of `pd.DataFrame(data, columns)`
(line 55) infers float64 when every value is a number or `None` and the
column holds a float or `nan`, or a `None` beside an integer.  A column
holding any non-numeric value keeps object dtype and its Python values;
an all-integer column keeps int64, whose values still surface as Python
integers through `df.values` in any frame that also carries a text or date
column (as every report grid does — a frame of nothing but integer columns
is outside the modelled reports). -/
def columnIsFloatCoerced (vs : List Scalar) : Bool :=
  vs.all isNullOrNumLike &&
    (vs.any isFloatishScalar || (vs.any isIntScalar && vs.any isNullScalar))

/-- Coercion of one value into a float64 column: integers become floats and
`None` becomes the float `nan` (truthy, and an instance of `float`). -/
def floatify : Scalar → Scalar
  | .int n => .num ⟨n, 0⟩
  | .null => .nan
  | v => v

/-- The values of `pd.DataFrame(data, columns=columns)` (line 55) as the
write loop observes them through `df.values`: each cell of a float64-coerced
column is floatified, every other cell keeps its Python value. -/
def pandasFrameValues (columns : List String) (data : List (List Scalar)) :
    List (List Scalar) :=
  data.map fun r =>
    (List.range columns.length).map fun j =>
      if columnIsFloatCoerced (frameColumn data j) then floatify (r.getD j Scalar.null)
      else r.getD j Scalar.null

/-- A sheet of the final document: a rendered data grid or the metadata
sheet (title plus key/value rows). -/
inductive Sheet where
  | grid : DataSheet → Sheet
  | meta : String → List (String × Scalar) → Sheet
deriving DecidableEq

/-- A workbook: an ordered list of sheets. -/
structure Workbook where
  sheets : List Sheet
deriving DecidableEq

/-- The fixed key/value rows of `_add_metadata_sheet` (lines 298-306), in
source order.  The generation timestamp is the one wall-clock input and is
passed in explicitly. -/
def metadataRows (reportType startDate endDate : String) (recordCount : Nat)
    (genTimestamp : String) : List (String × Scalar) :=
  [("Tipo de Reporte", .str reportType),
   ("Fecha de Generación", .str genTimestamp),
   ("Fecha Inicio", .str startDate),
   ("Fecha Fin", .str endDate),
   ("Total de Registros", .int (Int.ofNat recordCount)),
   ("Sistema", .str "Extractor de Datos Odoo 17"),
   ("Versión", .str "1.0")]

/-- `_add_metadata_sheet`: `create_sheet("Información del Reporte", 0)`
inserts the metadata sheet at position 0. -/
def addMetadataSheet (wb : Workbook) (reportType startDate endDate : String)
    (recordCount : Nat) (genTimestamp : String) : Workbook :=
  ⟨.meta "Información del Reporte"
      (metadataRows reportType startDate endDate recordCount genTimestamp)
    :: wb.sheets⟩

/-- A stored file: its workbook content and whether another process holds
it open exclusively. -/
structure FileState where
  content : Workbook
  locked : Bool
deriving DecidableEq

/-- The file system visible to the generator: an association list from
paths to file states. -/
abbrev FS := List (String × FileState)

/-- Overwrite (or create) the file at `path` — the single `wb.save(...)`
call. -/
def fsWrite (fs : FS) (path : String) (wb : Workbook) : FS :=
  (path, ⟨wb, false⟩) :: fs.filter fun p => !(p.1 == path)

/-- `_check_file_availability` (lines 320-338): when a file already exists
at the path and is held open by another process, the `open(path, 'r+')`
probe raises and the method raises `"File is currently in use: <name>"`;
otherwise it returns normally. -/
def checkFileAvailability (fs : FS) (path fileName : String) : Except String Unit :=
  match fs.lookup path with
  | some st =>
    if st.locked then .error ("File is currently in use: " ++ fileName)
    else .ok ()
  | none => .ok ()

deriving instance DecidableEq for Except

/-- Outcome of one generation call: the returned path or the raised error,
plus the file system after the call. -/
structure GenOutput where
  result : Except String String
  fs : FS
deriving DecidableEq

/-- `generate_invoices_report` (lines 157-197): build the file name from
the date range, probe availability, build the styled workbook (the data
sheet), insert the metadata sheet first, save, and return the path. -/
def generate_invoices_report (outDir : String) (fs : FS)
    (data : List (List Scalar)) (columns : List String)
    (startDate endDate genTimestamp : String) : GenOutput :=
  let fileName :=
    if startDate == endDate then "facturas_" ++ startDate ++ ".xlsx"
    else "facturas_" ++ startDate ++ "_" ++ endDate ++ ".xlsx"
  let path := outDir ++ "/" ++ fileName
  match checkFileAvailability fs path fileName with
  | .error e => ⟨.error e, fs⟩
  | .ok _ =>
    let wb : Workbook := ⟨[.grid (createStyledWorkbook data columns "Facturas")]⟩
    let wb := addMetadataSheet wb "Facturas Report" startDate endDate
      data.length genTimestamp
    ⟨.ok path, fsWrite fs path wb⟩

/-- `generate_partners_report` (lines 199-239). -/
def generate_partners_report (outDir : String) (fs : FS)
    (data : List (List Scalar)) (columns : List String)
    (startDate endDate genTimestamp : String) : GenOutput :=
  let fileName :=
    if startDate == endDate then "terceros_" ++ startDate ++ ".xlsx"
    else "terceros_" ++ startDate ++ "_" ++ endDate ++ ".xlsx"
  let path := outDir ++ "/" ++ fileName
  match checkFileAvailability fs path fileName with
  | .error e => ⟨.error e, fs⟩
  | .ok _ =>
    let wb : Workbook := ⟨[.grid (createStyledWorkbook data columns "Terceros")]⟩
    let wb := addMetadataSheet wb "Terceros Report" startDate endDate
      data.length genTimestamp
    ⟨.ok path, fsWrite fs path wb⟩

/-- `generate_credit_notes_report` (lines 241-281). -/
def generate_credit_notes_report (outDir : String) (fs : FS)
    (data : List (List Scalar)) (columns : List String)
    (startDate endDate genTimestamp : String) : GenOutput :=
  let fileName :=
    if startDate == endDate then "notas_credito_" ++ startDate ++ ".xlsx"
    else "notas_credito_" ++ startDate ++ "_" ++ endDate ++ ".xlsx"
  let path := outDir ++ "/" ++ fileName
  match checkFileAvailability fs path fileName with
  | .error e => ⟨.error e, fs⟩
  | .ok _ =>
    let wb : Workbook := ⟨[.grid (createStyledWorkbook data columns "Notas de Crédito")]⟩
    let wb := addMetadataSheet wb "Credit Notes Report" startDate endDate
      data.length genTimestamp
    ⟨.ok path, fsWrite fs path wb⟩

/-- `generate_combined_report` (lines 340-399): empty workbook (default
sheet removed), metadata sheet first, then — only for a grid with a
nonempty (truthy) row list — the rendered invoices and partners sheets are
appended. -/
def generate_combined_report (outDir : String) (fs : FS)
    (invoicesData : List (List Scalar) × List String)
    (partnersData : List (List Scalar) × List String)
    (startDate endDate genTimestamp : String) : GenOutput :=
  let fileName :=
    if startDate == endDate then "reporte_completo_" ++ startDate ++ ".xlsx"
    else "reporte_completo_" ++ startDate ++ "_" ++ endDate ++ ".xlsx"
  let path := outDir ++ "/" ++ fileName
  match checkFileAvailability fs path fileName with
  | .error e => ⟨.error e, fs⟩
  | .ok _ =>
    let wb : Workbook := ⟨[]⟩
    let wb := addMetadataSheet wb "Combined Report" startDate endDate
      (invoicesData.1.length + partnersData.1.length) genTimestamp
    let wb : Workbook :=
      if invoicesData.1.isEmpty then wb
      else ⟨wb.sheets ++ [.grid (createStyledWorkbook invoicesData.1 invoicesData.2 "Facturas")]⟩
    let wb : Workbook :=
      if partnersData.1.isEmpty then wb
      else ⟨wb.sheets ++ [.grid (createStyledWorkbook partnersData.1 partnersData.2 "Terceros")]⟩
    ⟨.ok path, fsWrite fs path wb⟩

end Franja

namespace Franja

/-! ### Helper lemmas on list indexing and the width loop -/

theorem getD_map_of_lt {α β : Type} (g : α → β) (l : List α) (i : Nat)
    (hi : i < l.length) (d : α) (d2 : β) :
    (l.map g).getD i d2 = g (l.getD i d) := by
  induction l generalizing i with
  | nil => simp at hi
  | cons a t ih =>
    cases i with
    | zero => rfl
    | succ n => simpa using ih n (by simpa using hi)

theorem zipMap_getD {α β γ : Type} (f : α × β → γ) (cols : List α) (row : List β)
    (j : Nat) (hj : j < cols.length) (hr : row.length = cols.length)
    (d1 : α) (d2 : β) (d3 : γ) :
    ((cols.zip row).map f).getD j d3 = f (cols.getD j d1, row.getD j d2) := by
  induction cols generalizing row j with
  | nil => simp at hj
  | cons c cs ih =>
    cases row with
    | nil => simp at hr
    | cons r rs =>
      cases j with
      | zero => rfl
      | succ n =>
        have hr2 : rs.length = cs.length := by simpa using hr
        simpa using ih rs n (by simpa using hj) hr2

theorem zipMap_length {α β γ : Type} (f : α × β → γ) (cols : List α) (row : List β)
    (hr : row.length = cols.length) :
    ((cols.zip row).map f).length = cols.length := by
  simp [List.length_zip, hr]

theorem range_getD (n j : Nat) (hj : j < n) : (List.range n).getD j 0 = j := by
  rw [List.getD_eq_getElem (List.range n) 0 (by simpa using hj)]
  simp

theorem maxLenLoop_eq (l : List Nat) (m : Nat) :
    maxLenLoop m l = max m (l.foldr max 0) := by
  induction l generalizing m with
  | nil => simp [maxLenLoop]
  | cons a t ih =>
    rw [maxLenLoop, ih]
    have hif : (if a > m then a else m) = max m a := by
      rw [Nat.max_def]; split <;> split <;> omega
    rw [hif]
    simp only [List.foldr_cons]
    rw [Nat.max_assoc]

/-! ### Helper lemmas on decimal rendering and `strftime` output -/

theorem natToDecAux_length_le (fuel : Nat) : ∀ (n : Nat) (acc : List Char),
    acc.length ≤ (natToDecAux fuel n acc).length := by
  induction fuel with
  | zero => intro n acc; simp [natToDecAux]
  | succ f ih =>
    intro n acc
    cases n with
    | zero => simp [natToDecAux]
    | succ k =>
      have hstep : natToDecAux (f + 1) (k + 1) acc =
          natToDecAux f ((k + 1) / 10) (digitChar ((k + 1) % 10) :: acc) := rfl
      rw [hstep]
      calc acc.length ≤ (digitChar ((k + 1) % 10) :: acc).length := by simp
        _ ≤ _ := ih ((k + 1) / 10) _

theorem natToDec_length_pos (n : Nat) : 1 ≤ (natToDec n).length := by
  unfold natToDec
  split
  · decide
  · cases n with
    | zero => simp_all
    | succ k =>
      show 1 ≤ (natToDecAux (k + 1) (k + 1) []).length
      have hstep : natToDecAux (k + 1) (k + 1) [] =
          natToDecAux k ((k + 1) / 10) [digitChar ((k + 1) % 10)] := rfl
      rw [hstep]
      have h := natToDecAux_length_le k ((k + 1) / 10) [digitChar ((k + 1) % 10)]
      simpa using h

theorem strftimeDMY_length (d : PDate) : 7 ≤ (strftimeDMY d).length := by
  unfold strftimeDMY
  rw [String.length_append, String.length_append, String.length_append,
    String.length_append]
  have h1 : (pad2 d.day).length = 2 := rfl
  have h2 : (pad2 d.month).length = 2 := rfl
  have h3 : 1 ≤ (natToDec d.year).length := natToDec_length_pos _
  have h4 : ("/" : String).length = 1 := rfl
  omega

theorem strftimeDMY_ne_empty (d : PDate) : ¬(strftimeDMY d = "") := by
  intro h
  have := strftimeDMY_length d
  rw [h] at this
  simp at this

theorem strftimeDMY_ne_NaT (d : PDate) : ¬(strftimeDMY d = "NaT") := by
  intro h
  have h7 := strftimeDMY_length d
  rw [h] at h7
  have : ("NaT" : String).length = 3 := rfl
  omega

/-! ### The per-cell pipeline view of the rendered grid -/

theorem createStyledWorkbook_rows (data : List (List Scalar)) (columns : List String)
    (nm : String) :
    (createStyledWorkbook data columns nm).rows =
      data.map fun row =>
        (columns.zip ((columns.zip ((columns.zip row).map fun p =>
          if isDateCol p.1 then pandasDateCell p.2 else p.2)).map fun p =>
          writeDataCell p.1 p.2)).map fun p => formatDataCell p.1 p.2 := by
  simp only [createStyledWorkbook, List.map_map, Function.comp_def]

theorem grid_cell (data : List (List Scalar)) (columns : List String) (nm : String)
    (i j : Nat) (hi : i < data.length) (hj : j < columns.length)
    (hr : (data.getD i []).length = columns.length) :
    ((createStyledWorkbook data columns nm).rows.getD i []).getD j defaultCell =
      renderCell (columns.getD j "") ((data.getD i []).getD j Scalar.null) := by
  rw [createStyledWorkbook_rows]
  rw [getD_map_of_lt _ data i hi []]
  have h1 : ((columns.zip (data.getD i [])).map fun p =>
      if isDateCol p.1 then pandasDateCell p.2 else p.2).length = columns.length :=
    zipMap_length _ _ _ hr
  have h2 : ((columns.zip ((columns.zip (data.getD i [])).map fun p =>
      if isDateCol p.1 then pandasDateCell p.2 else p.2)).map fun p =>
      writeDataCell p.1 p.2).length = columns.length :=
    zipMap_length _ _ _ h1
  rw [zipMap_getD _ _ _ j hj h2 "" defaultCell defaultCell]
  rw [zipMap_getD _ _ _ j hj h1 "" Scalar.null defaultCell]
  rw [zipMap_getD _ _ _ j hj hr "" Scalar.null Scalar.null]
  rfl

theorem renderCell_date (colName : String) (v : Scalar) (d : PDate)
    (hc : isDateCol colName = true) (hp : toDatetimeCoerce v = some d) :
    renderCell colName v = ⟨.str (strftimeDMY d), "s", "@", false⟩ := by
  have h1 : (strftimeDMY d == "") = false :=
    beq_eq_false_iff_ne.mpr (strftimeDMY_ne_empty d)
  have h2 : (strftimeDMY d == "NaT") = false :=
    beq_eq_false_iff_ne.mpr (strftimeDMY_ne_NaT d)
  simp [renderCell, hc, pandasDateCell, hp, writeDataCell, formatDataCell,
    pyStr, pyTruthy, h1, h2]

theorem renderCell_currency_truthy (colName : String) (v : Scalar)
    (hc : isCurrencyCol colName = true) (hd : isDateCol colName = false)
    (hv : isNumericScalar v = true) (ht : pyTruthy v = true) :
    renderCell colName v = ⟨v, inferDataType v, "#,##0.00", false⟩ := by
  simp [renderCell, hd, hc, writeDataCell, formatDataCell, hv, ht]

theorem renderCell_currency_null (colName : String)
    (hc : isCurrencyCol colName = true) (hd : isDateCol colName = false) :
    renderCell colName Scalar.null = ⟨.null, "n", "General", false⟩ := by
  simp [renderCell, hd, hc, writeDataCell, formatDataCell, pyTruthy, inferDataType]

end Franja

namespace Franja

theorem renderCell_date_unparsed (colName : String) (v : Scalar)
    (hc : isDateCol colName = true) (hp : toDatetimeCoerce v = none) :
    renderCell colName v = ⟨.str "nan", "s", "@", false⟩ := by
  have h1 : (("nan" : String) == "") = false := by decide
  have h2 : (("nan" : String) == "NaT") = false := by decide
  simp [renderCell, hc, pandasDateCell, hp, writeDataCell, formatDataCell,
    pyStr, pyTruthy, h1, h2]

theorem renderCell_currency_falsy (colName : String) (v : Scalar)
    (hc : isCurrencyCol colName = true) (hd : isDateCol colName = false)
    (ht : pyTruthy v = false) :
    renderCell colName v = ⟨v, inferDataType v, "General", false⟩ := by
  simp [renderCell, hd, hc, writeDataCell, formatDataCell, ht]

theorem createStyledWorkbook_widths (data : List (List Scalar))
    (columns : List String) (nm : String) :
    (createStyledWorkbook data columns nm).widths =
      (List.range columns.length).map fun j =>
        columnWidth (columns.getD j "") ((data.map fun row =>
          (columns.zip ((columns.zip row).map fun p =>
            if isDateCol p.1 then pandasDateCell p.2 else p.2)).map fun p =>
            writeDataCell p.1 p.2).map fun r => r.getD j defaultCell) := by
  simp only [createStyledWorkbook, List.map_map, Function.comp_def]

theorem fsWrite_lookup_self (fs : FS) (path : String) (wb : Workbook) :
    (fsWrite fs path wb).lookup path = some ⟨wb, false⟩ := by
  simp [fsWrite, List.lookup]

end Franja

namespace Franja

/-- C1: evaluation of the code at the failing input.  In a date-like column
(`fecha_factura`), an unparseable cell value `"not-a-date"` is rendered as
the text `"nan"` — not as the empty string the claim requires — because the
pandas `strftime` pass turns `NaT` into the float `nan`, which is truthy and
whose `str()` is `"nan"`, so the `!= 'NaT'` guard of line 77 never selects
the empty-string branch.  The rest of the row renders normally and nothing
raises. -/
theorem c1_unparseable_date_renders_nan :
    (createStyledWorkbook [[Scalar.str "not-a-date", Scalar.str "X"]]
        ["fecha_factura", "numero"] "Facturas").rows =
      [[⟨.str "nan", "s", "@", false⟩, ⟨.str "X", "s", "General", false⟩]] ∧
    Scalar.str "nan" ≠ Scalar.str "" := by
  exact ⟨by decide, by decide⟩

/-- C2 counterexample: a combined-report call whose two grids have zero data
rows and nonzero columns succeeds, but the saved document holds only the
metadata sheet (record count 0) — no header-only data sheet is produced for
either requested grid, because `generate_combined_report` adds a grid sheet
only when the grid's row list is truthy. -/
theorem c2_counterexample :
    generate_combined_report "out" [] ([], ["numero_factura"]) ([], ["nit"])
        "2024-01-01" "2024-01-31" "2024-02-01 10:00:00" =
      ⟨.ok "out/reporte_completo_2024-01-01_2024-01-31.xlsx",
       [("out/reporte_completo_2024-01-01_2024-01-31.xlsx",
         ⟨⟨[.meta "Información del Reporte"
              (metadataRows "Combined Report" "2024-01-01" "2024-01-31" 0
                "2024-02-01 10:00:00")]⟩, false⟩)]⟩ := by
  decide

/-- C3: in every date-like column, a cell whose value parses as the calendar
date `d` is rendered as the `DD/MM/YYYY` text `strftimeDMY d`, stored as a
string-typed cell (`dataType = "s"`) with the explicit text number format
`"@"` — never as a native date/time cell. -/
theorem c3_date_normalization (data : List (List Scalar)) (columns : List String)
    (nm : String) (i j : Nat) (hi : i < data.length) (hj : j < columns.length)
    (hr : (data.getD i []).length = columns.length)
    (hdate : isDateCol (columns.getD j "") = true) (d : PDate)
    (hparse : toDatetimeCoerce ((data.getD i []).getD j Scalar.null) = some d) :
    ((createStyledWorkbook data columns nm).rows.getD i []).getD j defaultCell =
      ⟨.str (strftimeDMY d), "s", "@", false⟩ := by
  rw [grid_cell data columns nm i j hi hj hr]
  exact renderCell_date _ _ d hdate hparse

/-- C3 witness: the ISO cell `"2024-01-05"` in column `fecha_factura`
renders as the text `"05/01/2024"` with string type and text format. -/
theorem c3_witness :
    ((createStyledWorkbook [[Scalar.str "2024-01-05"]] ["fecha_factura"]
        "Facturas").rows.getD 0 []).getD 0 defaultCell =
      ⟨.str "05/01/2024", "s", "@", false⟩ := by
  have h := c3_date_normalization [[Scalar.str "2024-01-05"]] ["fecha_factura"]
    "Facturas" 0 0 (by decide) (by decide) (by decide) (by decide)
    ⟨2024, 1, 5⟩ (by decide)
  exact h.trans (by decide)

/-- C6 counterexample: in the numeric-currency column `valor`, a data cell
holding the numeric value `0.0` keeps the default `General` number format —
the claimed `'#,##0.00'` format is not applied, because the guard of line
148 tests the value for truthiness before testing that it is numeric. -/
theorem c6_counterexample :
    isCurrencyCol "valor" = true ∧
    isNumericScalar (Scalar.num ⟨0, 0⟩) = true ∧
    ((createStyledWorkbook [[Scalar.num ⟨0, 0⟩]] ["valor"] "Facturas").rows.getD 0
        []).getD 0 defaultCell = ⟨Scalar.num ⟨0, 0⟩, "n", "General", false⟩ ∧
    (((createStyledWorkbook [[Scalar.num ⟨0, 0⟩]] ["valor"] "Facturas").rows.getD 0
        []).getD 0 defaultCell).numberFormat ≠ "#,##0.00" := by
  refine ⟨by decide, by decide, by decide, by decide⟩

theorem pandasFrameValues_getD (columns : List String) (data : List (List Scalar))
    (i j : Nat) (hi : i < data.length) (hj : j < columns.length) :
    ((pandasFrameValues columns data).getD i []).getD j Scalar.null =
      if columnIsFloatCoerced (frameColumn data j)
      then floatify ((data.getD i []).getD j Scalar.null)
      else (data.getD i []).getD j Scalar.null := by
  unfold pandasFrameValues
  rw [getD_map_of_lt _ data i hi []]
  rw [getD_map_of_lt _ (List.range columns.length) j (by simpa using hj) 0]
  rw [range_getD _ _ hj]

theorem pandasFrameValues_length (columns : List String)
    (data : List (List Scalar)) :
    (pandasFrameValues columns data).length = data.length := by
  simp [pandasFrameValues]

theorem pandasFrameValues_row_length (columns : List String)
    (data : List (List Scalar)) (i : Nat) (hi : i < data.length) :
    ((pandasFrameValues columns data).getD i []).length = columns.length := by
  unfold pandasFrameValues
  rw [getD_map_of_lt _ data i hi []]
  simp

theorem frameColumn_mem (data : List (List Scalar)) (i j : Nat)
    (hi : i < data.length) :
    (data.getD i []).getD j Scalar.null ∈ frameColumn data j := by
  have hmem : data.getD i [] ∈ data := by
    rw [List.getD_eq_getElem data [] hi]
    exact List.getElem_mem hi
  exact List.mem_map_of_mem _ hmem

theorem floatify_numeric (v : Scalar) (h : isNullOrNumLike v = true) :
    isNumericScalar (floatify v) = true := by
  cases v <;> simp_all [isNullOrNumLike, isNullScalar, isNumericScalar, floatify]

/-- C6 (amended): in a numeric-currency column that is not also date-like,
rendered through the full pipeline (DataFrame dtype coercion, then the
styled-workbook construction): in a float64-coerced column, every cell whose
coerced value is truthy receives the `'#,##0.00'` format — in particular a
null cell, which the coercion turns into the truthy float `nan`, is not left
untouched but rendered as a `nan` cell with the currency format — while a
zero-valued cell keeps `General`; in a column kept at object dtype by a
non-numeric value, a truthy numeric cell receives the format and a null cell
is left untouched. -/
theorem c6_currency_formatting (data : List (List Scalar)) (columns : List String)
    (nm : String) (i j : Nat) (hi : i < data.length) (hj : j < columns.length)
    (hc : isCurrencyCol (columns.getD j "") = true)
    (hd : isDateCol (columns.getD j "") = false) :
    (columnIsFloatCoerced (frameColumn data j) = true →
      (pyTruthy (floatify ((data.getD i []).getD j Scalar.null)) = true →
        (((createStyledWorkbook (pandasFrameValues columns data) columns
          nm).rows.getD i []).getD j defaultCell).numberFormat = "#,##0.00") ∧
      ((data.getD i []).getD j Scalar.null = Scalar.null →
        ((createStyledWorkbook (pandasFrameValues columns data) columns
          nm).rows.getD i []).getD j defaultCell =
          ⟨Scalar.nan, "n", "#,##0.00", false⟩) ∧
      (pyTruthy (floatify ((data.getD i []).getD j Scalar.null)) = false →
        (((createStyledWorkbook (pandasFrameValues columns data) columns
          nm).rows.getD i []).getD j defaultCell).numberFormat = "General")) ∧
    ((frameColumn data j).all isNullOrNumLike = false →
      (pyTruthy ((data.getD i []).getD j Scalar.null) = true →
        isNumericScalar ((data.getD i []).getD j Scalar.null) = true →
        (((createStyledWorkbook (pandasFrameValues columns data) columns
          nm).rows.getD i []).getD j defaultCell).numberFormat = "#,##0.00") ∧
      ((data.getD i []).getD j Scalar.null = Scalar.null →
        ((createStyledWorkbook (pandasFrameValues columns data) columns
          nm).rows.getD i []).getD j defaultCell =
          ⟨Scalar.null, "n", "General", false⟩)) := by
  have hi2 : i < (pandasFrameValues columns data).length := by
    rw [pandasFrameValues_length]; exact hi
  have hcell := grid_cell (pandasFrameValues columns data) columns nm i j hi2 hj
    (pandasFrameValues_row_length columns data i hi)
  have hval := pandasFrameValues_getD columns data i j hi hj
  constructor
  · intro hfc
    rw [if_pos hfc] at hval
    rw [hval] at hcell
    have hall : (frameColumn data j).all isNullOrNumLike = true := by
      have h := hfc
      unfold columnIsFloatCoerced at h
      exact ((Bool.and_eq_true _ _).mp h).1
    have hnl : isNullOrNumLike ((data.getD i []).getD j Scalar.null) = true :=
      List.all_eq_true.mp hall _ (frameColumn_mem data i j hi)
    refine ⟨?_, ?_, ?_⟩
    · intro ht
      rw [hcell, renderCell_currency_truthy _ _ hc hd (floatify_numeric _ hnl) ht]
    · intro hnull
      rw [hcell, hnull]
      have hfn : floatify Scalar.null = Scalar.nan := rfl
      rw [hfn, renderCell_currency_truthy _ Scalar.nan hc hd rfl rfl]
      rfl
    · intro ht
      rw [hcell, renderCell_currency_falsy _ _ hc hd ht]
  · intro hallf
    have hnc : columnIsFloatCoerced (frameColumn data j) = false := by
      unfold columnIsFloatCoerced
      rw [hallf]
      rfl
    rw [if_neg (by simp [hnc])] at hval
    rw [hval] at hcell
    constructor
    · intro ht hv
      rw [hcell, renderCell_currency_truthy _ _ hc hd hv ht]
    · intro hnull
      rw [hcell, hnull, renderCell_currency_null _ hc hd]

/-- C6 witness: in the float64-coerced column `[1234.5, None]` under
`valor`, the `1234.5` cell receives `'#,##0.00'` and the null cell renders
as the truthy float `nan` with the currency format; in the object column
`["N/A", None]`, the null cell is left untouched. -/
theorem c6_witness :
    (((createStyledWorkbook (pandasFrameValues ["valor"]
        [[Scalar.num ⟨12345, 1⟩], [Scalar.null]]) ["valor"]
        "Facturas").rows.getD 0 []).getD 0 defaultCell).numberFormat =
      "#,##0.00" ∧
    ((createStyledWorkbook (pandasFrameValues ["valor"]
        [[Scalar.num ⟨12345, 1⟩], [Scalar.null]]) ["valor"]
        "Facturas").rows.getD 1 []).getD 0 defaultCell =
      ⟨Scalar.nan, "n", "#,##0.00", false⟩ ∧
    ((createStyledWorkbook (pandasFrameValues ["valor"]
        [[Scalar.str "N/A"], [Scalar.null]]) ["valor"]
        "Facturas").rows.getD 1 []).getD 0 defaultCell =
      ⟨Scalar.null, "n", "General", false⟩ := by
  refine ⟨((c6_currency_formatting [[Scalar.num ⟨12345, 1⟩], [Scalar.null]]
      ["valor"] "Facturas" 0 0 (by decide) (by decide) (by decide)
      (by decide)).1 (by decide)).1 (by decide),
    ((c6_currency_formatting [[Scalar.num ⟨12345, 1⟩], [Scalar.null]]
      ["valor"] "Facturas" 1 0 (by decide) (by decide) (by decide)
      (by decide)).1 (by decide)).2.1 (by decide),
    ((c6_currency_formatting [[Scalar.str "N/A"], [Scalar.null]]
      ["valor"] "Facturas" 1 0 (by decide) (by decide) (by decide)
      (by decide)).2 (by decide)).2 (by decide)⟩

/-- C10: in every numeric-currency column, a data cell holding the numeric
value `0` (integer or float) does not receive the `'#,##0.00'` number
format, because the formatting guard tests the cell value for truthiness
before testing that it is numeric. -/
theorem c10_zero_never_formatted (data : List (List Scalar))
    (columns : List String) (nm : String) (i j : Nat)
    (hi : i < data.length) (hj : j < columns.length)
    (hr : (data.getD i []).length = columns.length)
    (hc : isCurrencyCol (columns.getD j "") = true)
    (hv : (data.getD i []).getD j Scalar.null = Scalar.int 0 ∨
      (data.getD i []).getD j Scalar.null = Scalar.num ⟨0, 0⟩) :
    (((createStyledWorkbook data columns nm).rows.getD i []).getD j
      defaultCell).numberFormat ≠ "#,##0.00" := by
  rw [grid_cell data columns nm i j hi hj hr]
  rcases hv with hv | hv <;> rw [hv] <;>
    cases hd : isDateCol (columns.getD j "")
  · rw [renderCell_currency_falsy _ _ hc hd (by decide)]; decide
  · rw [renderCell_date_unparsed _ _ hd (by decide)]; decide
  · rw [renderCell_currency_falsy _ _ hc hd (by decide)]; decide
  · rw [renderCell_date_unparsed _ _ hd (by decide)]; decide

/-- C10 witness: an integer `0` in the `valor` column keeps a format other
than `'#,##0.00'`. -/
theorem c10_witness :
    (((createStyledWorkbook [[Scalar.int 0]] ["valor"] "F").rows.getD 0
      []).getD 0 defaultCell).numberFormat ≠ "#,##0.00" :=
  c10_zero_never_formatted [[Scalar.int 0]] ["valor"] "F" 0 0 (by decide)
    (by decide) (by decide) (by decide) (Or.inl (by decide))

/-- C5: shape preservation — the rendered sheet keeps the header column
list, has exactly one data row per input row in the same order, every
rendered row has exactly one cell per column, and the cell at position
`(i, j)` is the per-cell rendering of input cell `(i, j)` under column
`j`'s name (so no row or column is dropped, added or reordered). -/
theorem c5_shape_preservation (data : List (List Scalar)) (columns : List String)
    (nm : String) (h : ∀ r ∈ data, r.length = columns.length) :
    (createStyledWorkbook data columns nm).header = columns ∧
    (createStyledWorkbook data columns nm).rows.length = data.length ∧
    (∀ r ∈ (createStyledWorkbook data columns nm).rows,
      r.length = columns.length) ∧
    (∀ i j, i < data.length → j < columns.length →
      ((createStyledWorkbook data columns nm).rows.getD i []).getD j
          defaultCell =
        renderCell (columns.getD j "") ((data.getD i []).getD j Scalar.null)) := by
  refine ⟨rfl, ?_, ?_, ?_⟩
  · rw [createStyledWorkbook_rows]; simp
  · intro r hrmem
    rw [createStyledWorkbook_rows] at hrmem
    rcases List.mem_map.mp hrmem with ⟨row, hrowmem, rfl⟩
    exact zipMap_length _ _ _ (zipMap_length _ _ _ (zipMap_length _ _ _
      (h row hrowmem)))
  · intro i j hi hj
    have hmem : data.getD i [] ∈ data := by
      rw [List.getD_eq_getElem data [] hi]
      exact List.getElem_mem hi
    exact grid_cell data columns nm i j hi hj (h _ hmem)

/-- C5 witness: a 2×2 grid renders with two rows of two cells each, and the
cell at (0, 1) is the rendering of the input cell at (0, 1). -/
theorem c5_witness :
    (createStyledWorkbook [[Scalar.str "a", Scalar.int 7],
        [Scalar.str "b", Scalar.int 8]] ["numero", "valor"] "F").rows.length =
      2 ∧
    ((createStyledWorkbook [[Scalar.str "a", Scalar.int 7],
        [Scalar.str "b", Scalar.int 8]] ["numero", "valor"] "F").rows.getD 0
        []).getD 1 defaultCell = renderCell "valor" (Scalar.int 7) := by
  refine ⟨(c5_shape_preservation [[Scalar.str "a", Scalar.int 7],
      [Scalar.str "b", Scalar.int 8]] ["numero", "valor"] "F"
      (by decide)).2.1, ?_⟩
  have h := (c5_shape_preservation [[Scalar.str "a", Scalar.int 7],
      [Scalar.str "b", Scalar.int 8]] ["numero", "valor"] "F"
      (by decide)).2.2.2 0 1 (by decide) (by decide)
  exact h.trans (by decide)

end Franja

namespace Franja

theorem invoices_cases (outDir : String) (fs : FS) (data : List (List Scalar))
    (columns : List String) (s e ts : String) :
    (∃ msg, generate_invoices_report outDir fs data columns s e ts =
      ⟨.error msg, fs⟩) ∨
    generate_invoices_report outDir fs data columns s e ts =
      ⟨.ok (outDir ++ "/" ++ (if s == e then "facturas_" ++ s ++ ".xlsx"
          else "facturas_" ++ s ++ "_" ++ e ++ ".xlsx")),
        fsWrite fs (outDir ++ "/" ++ (if s == e then "facturas_" ++ s ++ ".xlsx"
          else "facturas_" ++ s ++ "_" ++ e ++ ".xlsx"))
          (addMetadataSheet ⟨[.grid (createStyledWorkbook data columns "Facturas")]⟩
            "Facturas Report" s e data.length ts)⟩ := by
  simp only [generate_invoices_report]
  split
  · exact Or.inl ⟨_, rfl⟩
  · exact Or.inr rfl

theorem partners_cases (outDir : String) (fs : FS) (data : List (List Scalar))
    (columns : List String) (s e ts : String) :
    (∃ msg, generate_partners_report outDir fs data columns s e ts =
      ⟨.error msg, fs⟩) ∨
    generate_partners_report outDir fs data columns s e ts =
      ⟨.ok (outDir ++ "/" ++ (if s == e then "terceros_" ++ s ++ ".xlsx"
          else "terceros_" ++ s ++ "_" ++ e ++ ".xlsx")),
        fsWrite fs (outDir ++ "/" ++ (if s == e then "terceros_" ++ s ++ ".xlsx"
          else "terceros_" ++ s ++ "_" ++ e ++ ".xlsx"))
          (addMetadataSheet ⟨[.grid (createStyledWorkbook data columns "Terceros")]⟩
            "Terceros Report" s e data.length ts)⟩ := by
  simp only [generate_partners_report]
  split
  · exact Or.inl ⟨_, rfl⟩
  · exact Or.inr rfl

theorem credit_notes_cases (outDir : String) (fs : FS) (data : List (List Scalar))
    (columns : List String) (s e ts : String) :
    (∃ msg, generate_credit_notes_report outDir fs data columns s e ts =
      ⟨.error msg, fs⟩) ∨
    generate_credit_notes_report outDir fs data columns s e ts =
      ⟨.ok (outDir ++ "/" ++ (if s == e then "notas_credito_" ++ s ++ ".xlsx"
          else "notas_credito_" ++ s ++ "_" ++ e ++ ".xlsx")),
        fsWrite fs (outDir ++ "/" ++ (if s == e then "notas_credito_" ++ s ++ ".xlsx"
          else "notas_credito_" ++ s ++ "_" ++ e ++ ".xlsx"))
          (addMetadataSheet
            ⟨[.grid (createStyledWorkbook data columns "Notas de Crédito")]⟩
            "Credit Notes Report" s e data.length ts)⟩ := by
  simp only [generate_credit_notes_report]
  split
  · exact Or.inl ⟨_, rfl⟩
  · exact Or.inr rfl

theorem combined_cases (outDir : String) (fs : FS)
    (invoicesData partnersData : List (List Scalar) × List String)
    (s e ts : String) :
    (∃ msg, generate_combined_report outDir fs invoicesData partnersData s e ts =
      ⟨.error msg, fs⟩) ∨
    generate_combined_report outDir fs invoicesData partnersData s e ts =
      ⟨.ok (outDir ++ "/" ++ (if s == e then "reporte_completo_" ++ s ++ ".xlsx"
          else "reporte_completo_" ++ s ++ "_" ++ e ++ ".xlsx")),
        fsWrite fs
          (outDir ++ "/" ++ (if s == e then "reporte_completo_" ++ s ++ ".xlsx"
            else "reporte_completo_" ++ s ++ "_" ++ e ++ ".xlsx"))
          (let wb := addMetadataSheet ⟨[]⟩ "Combined Report" s e
            (invoicesData.1.length + partnersData.1.length) ts
          let wb : Workbook :=
            if invoicesData.1.isEmpty then wb
            else ⟨wb.sheets ++
              [.grid (createStyledWorkbook invoicesData.1 invoicesData.2 "Facturas")]⟩
          if partnersData.1.isEmpty then wb
          else ⟨wb.sheets ++
            [.grid (createStyledWorkbook partnersData.1 partnersData.2 "Terceros")]⟩)⟩ := by
  simp only [generate_combined_report]
  split
  · exact Or.inl ⟨_, rfl⟩
  · exact Or.inr rfl

end Franja

namespace Franja

/-- C4: lock protection — for every report kind, when a file already exists
at the target output path and is held by another process, the generation
call fails with the file-locked error and the file system (in particular
the existing file's contents) is unchanged: the availability probe runs
before the single save operation, so no save is attempted. -/
theorem c4_lock_protection :
    (∀ (outDir : String) (fs : FS) (data : List (List Scalar))
      (columns : List String) (s e ts : String) (st : FileState),
      fs.lookup (outDir ++ "/" ++ (if s == e then "facturas_" ++ s ++ ".xlsx"
        else "facturas_" ++ s ++ "_" ++ e ++ ".xlsx")) = some st →
      st.locked = true →
      generate_invoices_report outDir fs data columns s e ts =
        ⟨.error ("File is currently in use: " ++
          (if s == e then "facturas_" ++ s ++ ".xlsx"
            else "facturas_" ++ s ++ "_" ++ e ++ ".xlsx")), fs⟩) ∧
    (∀ (outDir : String) (fs : FS) (data : List (List Scalar))
      (columns : List String) (s e ts : String) (st : FileState),
      fs.lookup (outDir ++ "/" ++ (if s == e then "terceros_" ++ s ++ ".xlsx"
        else "terceros_" ++ s ++ "_" ++ e ++ ".xlsx")) = some st →
      st.locked = true →
      generate_partners_report outDir fs data columns s e ts =
        ⟨.error ("File is currently in use: " ++
          (if s == e then "terceros_" ++ s ++ ".xlsx"
            else "terceros_" ++ s ++ "_" ++ e ++ ".xlsx")), fs⟩) ∧
    (∀ (outDir : String) (fs : FS) (data : List (List Scalar))
      (columns : List String) (s e ts : String) (st : FileState),
      fs.lookup (outDir ++ "/" ++ (if s == e then "notas_credito_" ++ s ++ ".xlsx"
        else "notas_credito_" ++ s ++ "_" ++ e ++ ".xlsx")) = some st →
      st.locked = true →
      generate_credit_notes_report outDir fs data columns s e ts =
        ⟨.error ("File is currently in use: " ++
          (if s == e then "notas_credito_" ++ s ++ ".xlsx"
            else "notas_credito_" ++ s ++ "_" ++ e ++ ".xlsx")), fs⟩) ∧
    (∀ (outDir : String) (fs : FS)
      (invD partD : List (List Scalar) × List String) (s e ts : String)
      (st : FileState),
      fs.lookup (outDir ++ "/" ++
        (if s == e then "reporte_completo_" ++ s ++ ".xlsx"
          else "reporte_completo_" ++ s ++ "_" ++ e ++ ".xlsx")) = some st →
      st.locked = true →
      generate_combined_report outDir fs invD partD s e ts =
        ⟨.error ("File is currently in use: " ++
          (if s == e then "reporte_completo_" ++ s ++ ".xlsx"
            else "reporte_completo_" ++ s ++ "_" ++ e ++ ".xlsx")), fs⟩) := by
  refine ⟨?_, ?_, ?_, ?_⟩ <;>
    intro outDir fs a b s e ts st hlk hlocked <;>
    simp only [beq_iff_eq] at hlk <;>
    simp [generate_invoices_report, generate_partners_report,
      generate_credit_notes_report, generate_combined_report,
      checkFileAvailability, hlk, hlocked]

/-- C4 witness: an invoices call against a locked existing target file fails
with the file-locked error and leaves the file system unchanged. -/
theorem c4_witness :
    generate_invoices_report "out"
        [("out/facturas_2024-01-01.xlsx", ⟨⟨[]⟩, true⟩)] [] ["numero"]
        "2024-01-01" "2024-01-01" "ts" =
      ⟨.error "File is currently in use: facturas_2024-01-01.xlsx",
       [("out/facturas_2024-01-01.xlsx", ⟨⟨[]⟩, true⟩)]⟩ := by
  have h := c4_lock_protection.1 "out"
    [("out/facturas_2024-01-01.xlsx", ⟨⟨[]⟩, true⟩)] [] ["numero"]
    "2024-01-01" "2024-01-01" "ts" ⟨⟨[]⟩, true⟩ (by decide) rfl
  exact h.trans (by decide)

/-- C7: deterministic file naming — whenever a generation call of any kind
returns a path, that path is the output directory joined with
`<kind-label>_<start>.xlsx` when the two dates are equal and
`<kind-label>_<start>_<end>.xlsx` otherwise, with kind labels `facturas`,
`terceros`, `notas_credito` and `reporte_completo`. -/
theorem c7_deterministic_naming :
    (∀ (outDir : String) (fs : FS) (data : List (List Scalar))
      (columns : List String) (s e ts p : String),
      (generate_invoices_report outDir fs data columns s e ts).result = .ok p →
      p = outDir ++ "/" ++ (if s == e then "facturas_" ++ s ++ ".xlsx"
        else "facturas_" ++ s ++ "_" ++ e ++ ".xlsx")) ∧
    (∀ (outDir : String) (fs : FS) (data : List (List Scalar))
      (columns : List String) (s e ts p : String),
      (generate_partners_report outDir fs data columns s e ts).result = .ok p →
      p = outDir ++ "/" ++ (if s == e then "terceros_" ++ s ++ ".xlsx"
        else "terceros_" ++ s ++ "_" ++ e ++ ".xlsx")) ∧
    (∀ (outDir : String) (fs : FS) (data : List (List Scalar))
      (columns : List String) (s e ts p : String),
      (generate_credit_notes_report outDir fs data columns s e ts).result =
        .ok p →
      p = outDir ++ "/" ++ (if s == e then "notas_credito_" ++ s ++ ".xlsx"
        else "notas_credito_" ++ s ++ "_" ++ e ++ ".xlsx")) ∧
    (∀ (outDir : String) (fs : FS)
      (invD partD : List (List Scalar) × List String) (s e ts p : String),
      (generate_combined_report outDir fs invD partD s e ts).result = .ok p →
      p = outDir ++ "/" ++ (if s == e then "reporte_completo_" ++ s ++ ".xlsx"
        else "reporte_completo_" ++ s ++ "_" ++ e ++ ".xlsx")) := by
  refine ⟨?_, ?_, ?_, ?_⟩
  · intro outDir fs data columns s e ts p hok
    rcases invoices_cases outDir fs data columns s e ts with ⟨msg, hG⟩ | hG <;>
      rw [hG] at hok
    · exact Except.noConfusion hok
    · exact (Except.ok.inj hok).symm
  · intro outDir fs data columns s e ts p hok
    rcases partners_cases outDir fs data columns s e ts with ⟨msg, hG⟩ | hG <;>
      rw [hG] at hok
    · exact Except.noConfusion hok
    · exact (Except.ok.inj hok).symm
  · intro outDir fs data columns s e ts p hok
    rcases credit_notes_cases outDir fs data columns s e ts with ⟨msg, hG⟩ | hG <;>
      rw [hG] at hok
    · exact Except.noConfusion hok
    · exact (Except.ok.inj hok).symm
  · intro outDir fs invD partD s e ts p hok
    rcases combined_cases outDir fs invD partD s e ts with ⟨msg, hG⟩ | hG <;>
      rw [hG] at hok
    · exact Except.noConfusion hok
    · exact (Except.ok.inj hok).symm

/-- C7 witness: an invoices call with `start = end = "2024-01-01"` returns
the path `out/facturas_2024-01-01.xlsx`, matching the naming rule. -/
theorem c7_witness :
    "out/facturas_2024-01-01.xlsx" =
      "out" ++ "/" ++ (if ("2024-01-01" : String) == "2024-01-01"
        then "facturas_" ++ "2024-01-01" ++ ".xlsx"
        else "facturas_" ++ "2024-01-01" ++ "_" ++ "2024-01-01" ++ ".xlsx") :=
  c7_deterministic_naming.1 "out" [] [] ["numero"] "2024-01-01" "2024-01-01"
    "ts" "out/facturas_2024-01-01.xlsx" (by decide)

end Franja

namespace Franja

/-- C9: for every generated report document of every kind, the first sheet
is the metadata sheet, holding exactly seven key/value rows in order —
report kind, generation timestamp, start date, end date, record count,
system name and version. -/
theorem c9_metadata_first_sheet :
    (∀ (t s e ts : String) (n : Nat),
      (metadataRows t s e n ts).length = 7 ∧
      (metadataRows t s e n ts).map Prod.fst =
        ["Tipo de Reporte", "Fecha de Generación", "Fecha Inicio", "Fecha Fin",
         "Total de Registros", "Sistema", "Versión"]) ∧
    (∀ (outDir : String) (fs : FS) (data : List (List Scalar))
      (columns : List String) (s e ts p : String),
      (generate_invoices_report outDir fs data columns s e ts).result = .ok p →
      ∃ st, (generate_invoices_report outDir fs data columns s e ts).fs.lookup p
          = some st ∧
        st.content.sheets.head? = some (.meta "Información del Reporte"
          (metadataRows "Facturas Report" s e data.length ts))) ∧
    (∀ (outDir : String) (fs : FS) (data : List (List Scalar))
      (columns : List String) (s e ts p : String),
      (generate_partners_report outDir fs data columns s e ts).result = .ok p →
      ∃ st, (generate_partners_report outDir fs data columns s e ts).fs.lookup p
          = some st ∧
        st.content.sheets.head? = some (.meta "Información del Reporte"
          (metadataRows "Terceros Report" s e data.length ts))) ∧
    (∀ (outDir : String) (fs : FS) (data : List (List Scalar))
      (columns : List String) (s e ts p : String),
      (generate_credit_notes_report outDir fs data columns s e ts).result =
        .ok p →
      ∃ st, (generate_credit_notes_report outDir fs data columns s e
          ts).fs.lookup p = some st ∧
        st.content.sheets.head? = some (.meta "Información del Reporte"
          (metadataRows "Credit Notes Report" s e data.length ts))) ∧
    (∀ (outDir : String) (fs : FS)
      (invD partD : List (List Scalar) × List String) (s e ts p : String),
      (generate_combined_report outDir fs invD partD s e ts).result = .ok p →
      ∃ st, (generate_combined_report outDir fs invD partD s e ts).fs.lookup p
          = some st ∧
        st.content.sheets.head? = some (.meta "Información del Reporte"
          (metadataRows "Combined Report" s e
            (invD.1.length + partD.1.length) ts))) := by
  refine ⟨fun t s e ts n => ⟨rfl, rfl⟩, ?_, ?_, ?_, ?_⟩
  · intro outDir fs data columns s e ts p hok
    rcases invoices_cases outDir fs data columns s e ts with ⟨msg, hG⟩ | hG <;>
      rw [hG] at hok ⊢
    · exact Except.noConfusion hok
    · cases Except.ok.inj hok
      exact ⟨_, fsWrite_lookup_self fs _ _, rfl⟩
  · intro outDir fs data columns s e ts p hok
    rcases partners_cases outDir fs data columns s e ts with ⟨msg, hG⟩ | hG <;>
      rw [hG] at hok ⊢
    · exact Except.noConfusion hok
    · cases Except.ok.inj hok
      exact ⟨_, fsWrite_lookup_self fs _ _, rfl⟩
  · intro outDir fs data columns s e ts p hok
    rcases credit_notes_cases outDir fs data columns s e ts with ⟨msg, hG⟩ | hG <;>
      rw [hG] at hok ⊢
    · exact Except.noConfusion hok
    · cases Except.ok.inj hok
      exact ⟨_, fsWrite_lookup_self fs _ _, rfl⟩
  · intro outDir fs invD partD s e ts p hok
    rcases combined_cases outDir fs invD partD s e ts with ⟨msg, hG⟩ | hG <;>
      rw [hG] at hok ⊢
    · exact Except.noConfusion hok
    · cases Except.ok.inj hok
      refine ⟨_, fsWrite_lookup_self fs _ _, ?_⟩
      cases h1 : invD.1.isEmpty <;> cases h2 : partD.1.isEmpty <;>
        simp [h1, h2, addMetadataSheet]

/-- C9 witness: a concrete invoices report saves a document whose first
sheet is the metadata sheet with record count 1. -/
theorem c9_witness :
    ∃ st, (generate_invoices_report "out" [] [[Scalar.str "INV001"]]
        ["numero_factura"] "2024-01-01" "2024-01-02" "ts").fs.lookup
        "out/facturas_2024-01-01_2024-01-02.xlsx" = some st ∧
      st.content.sheets.head? = some (.meta "Información del Reporte"
        (metadataRows "Facturas Report" "2024-01-01" "2024-01-02" 1 "ts")) :=
  c9_metadata_first_sheet.2.1 "out" [] [[Scalar.str "INV001"]]
    ["numero_factura"] "2024-01-01" "2024-01-02" "ts"
    "out/facturas_2024-01-01_2024-01-02.xlsx" (by decide)

end Franja

namespace Franja

/-- C2 (amended): for the invoices, partners and credit-notes kinds, a call
with zero data rows succeeds whenever the availability probe passes, and
saves a document holding the metadata sheet with record count 0 followed by
a data sheet whose header is the column list and whose data-row list is
empty; the combined kind also succeeds with record count 0, but it omits
the data sheet of a grid with zero rows, so its saved document holds only
the metadata sheet. -/
theorem c2_empty_input :
    (∀ (columns : List String) (nm : String),
      (createStyledWorkbook [] columns nm).rows = [] ∧
      (createStyledWorkbook [] columns nm).header = columns) ∧
    (∀ (outDir : String) (fs : FS) (columns : List String) (s e ts : String),
      checkFileAvailability fs
        (outDir ++ "/" ++ (if s == e then "facturas_" ++ s ++ ".xlsx"
          else "facturas_" ++ s ++ "_" ++ e ++ ".xlsx"))
        (if s == e then "facturas_" ++ s ++ ".xlsx"
          else "facturas_" ++ s ++ "_" ++ e ++ ".xlsx") = .ok () →
      generate_invoices_report outDir fs [] columns s e ts =
        ⟨.ok (outDir ++ "/" ++ (if s == e then "facturas_" ++ s ++ ".xlsx"
            else "facturas_" ++ s ++ "_" ++ e ++ ".xlsx")),
          fsWrite fs (outDir ++ "/" ++ (if s == e then "facturas_" ++ s ++ ".xlsx"
            else "facturas_" ++ s ++ "_" ++ e ++ ".xlsx"))
            (addMetadataSheet ⟨[.grid (createStyledWorkbook [] columns "Facturas")]⟩
              "Facturas Report" s e 0 ts)⟩) ∧
    (∀ (outDir : String) (fs : FS) (columns : List String) (s e ts : String),
      checkFileAvailability fs
        (outDir ++ "/" ++ (if s == e then "terceros_" ++ s ++ ".xlsx"
          else "terceros_" ++ s ++ "_" ++ e ++ ".xlsx"))
        (if s == e then "terceros_" ++ s ++ ".xlsx"
          else "terceros_" ++ s ++ "_" ++ e ++ ".xlsx") = .ok () →
      generate_partners_report outDir fs [] columns s e ts =
        ⟨.ok (outDir ++ "/" ++ (if s == e then "terceros_" ++ s ++ ".xlsx"
            else "terceros_" ++ s ++ "_" ++ e ++ ".xlsx")),
          fsWrite fs (outDir ++ "/" ++ (if s == e then "terceros_" ++ s ++ ".xlsx"
            else "terceros_" ++ s ++ "_" ++ e ++ ".xlsx"))
            (addMetadataSheet ⟨[.grid (createStyledWorkbook [] columns "Terceros")]⟩
              "Terceros Report" s e 0 ts)⟩) ∧
    (∀ (outDir : String) (fs : FS) (columns : List String) (s e ts : String),
      checkFileAvailability fs
        (outDir ++ "/" ++ (if s == e then "notas_credito_" ++ s ++ ".xlsx"
          else "notas_credito_" ++ s ++ "_" ++ e ++ ".xlsx"))
        (if s == e then "notas_credito_" ++ s ++ ".xlsx"
          else "notas_credito_" ++ s ++ "_" ++ e ++ ".xlsx") = .ok () →
      generate_credit_notes_report outDir fs [] columns s e ts =
        ⟨.ok (outDir ++ "/" ++ (if s == e then "notas_credito_" ++ s ++ ".xlsx"
            else "notas_credito_" ++ s ++ "_" ++ e ++ ".xlsx")),
          fsWrite fs
            (outDir ++ "/" ++ (if s == e then "notas_credito_" ++ s ++ ".xlsx"
              else "notas_credito_" ++ s ++ "_" ++ e ++ ".xlsx"))
            (addMetadataSheet
              ⟨[.grid (createStyledWorkbook [] columns "Notas de Crédito")]⟩
              "Credit Notes Report" s e 0 ts)⟩) ∧
    (∀ (outDir : String) (fs : FS) (cols1 cols2 : List String) (s e ts : String),
      checkFileAvailability fs
        (outDir ++ "/" ++ (if s == e then "reporte_completo_" ++ s ++ ".xlsx"
          else "reporte_completo_" ++ s ++ "_" ++ e ++ ".xlsx"))
        (if s == e then "reporte_completo_" ++ s ++ ".xlsx"
          else "reporte_completo_" ++ s ++ "_" ++ e ++ ".xlsx") = .ok () →
      generate_combined_report outDir fs ([], cols1) ([], cols2) s e ts =
        ⟨.ok (outDir ++ "/" ++ (if s == e then "reporte_completo_" ++ s ++ ".xlsx"
            else "reporte_completo_" ++ s ++ "_" ++ e ++ ".xlsx")),
          fsWrite fs
            (outDir ++ "/" ++ (if s == e then "reporte_completo_" ++ s ++ ".xlsx"
              else "reporte_completo_" ++ s ++ "_" ++ e ++ ".xlsx"))
            ⟨[.meta "Información del Reporte"
              (metadataRows "Combined Report" s e 0 ts)]⟩⟩) := by
  refine ⟨fun columns nm => ⟨rfl, rfl⟩, ?_, ?_, ?_, ?_⟩ <;>
    intro outDir fs a s e ts hck <;>
    [skip; skip; skip; intro hck2] <;>
    simp only [beq_iff_eq] at * <;>
    simp [generate_invoices_report, generate_partners_report,
      generate_credit_notes_report, generate_combined_report,
      addMetadataSheet, *]

/-- C2 witness: an invoices call with zero rows and one column on an empty
file system succeeds and saves metadata (count 0) plus a header-only sheet. -/
theorem c2_witness :
    generate_invoices_report "out" [] [] ["numero_factura"] "2024-01-01"
        "2024-01-01" "ts" =
      ⟨.ok "out/facturas_2024-01-01.xlsx",
        fsWrite [] "out/facturas_2024-01-01.xlsx"
          (addMetadataSheet ⟨[.grid (createStyledWorkbook [] ["numero_factura"]
            "Facturas")]⟩ "Facturas Report" "2024-01-01" "2024-01-01" 0 "ts")⟩ ∧
    (createStyledWorkbook [] ["numero_factura"] "Facturas").rows = [] := by
  have h := c2_empty_input.2.1 "out" [] ["numero_factura"] "2024-01-01"
    "2024-01-01" "ts" (by decide)
  exact ⟨h.trans (by decide),
    (c2_empty_input.1 ["numero_factura"] "Facturas").1⟩

end Franja

namespace Franja

/-- C8: for every column `j` of the rendered data sheet, the assigned width
equals `min (max (L + 2) 12) 50`, where `L` is the maximum rendered
character length (`len(str(value))`) over the header cell and all data
cells of that column as they stand when the width loop runs. -/
theorem c8_column_width (data : List (List Scalar)) (columns : List String)
    (nm : String) (j : Nat) (hj : j < columns.length)
    (h : ∀ r ∈ data, r.length = columns.length) :
    (createStyledWorkbook data columns nm).widths.getD j 0 =
      min (max ((((columns.getD j "").length ::
        data.map fun r => (pyStr (displayedValue (columns.getD j "")
          (r.getD j Scalar.null))).length).foldr max 0) + 2) 12) 50 := by
  rw [createStyledWorkbook_widths]
  rw [getD_map_of_lt _ (List.range columns.length) j (by simpa using hj) 0]
  rw [range_getD _ _ hj]
  have hcells : ((data.map fun row =>
      (columns.zip ((columns.zip row).map fun p =>
        if isDateCol p.1 then pandasDateCell p.2 else p.2)).map fun p =>
        writeDataCell p.1 p.2).map fun r => r.getD j defaultCell) =
      data.map fun row => writeDataCell (columns.getD j "")
        (if isDateCol (columns.getD j "")
          then pandasDateCell (row.getD j Scalar.null)
          else row.getD j Scalar.null) := by
    rw [List.map_map]
    refine List.map_congr_left ?_
    intro row hrow
    simp only [Function.comp_def]
    rw [zipMap_getD _ _ _ j hj (zipMap_length _ _ _ (h row hrow)) ""
      Scalar.null defaultCell]
    rw [zipMap_getD _ _ _ j hj (h row hrow) "" Scalar.null Scalar.null]
  rw [hcells]
  unfold columnWidth
  rw [maxLenLoop_eq, Nat.zero_max, List.map_map]
  rfl

/-- C8 witness: with header `valor` (5 characters) and one data cell of 14
characters, the column width is `min (max (14 + 2) 12) 50 = 16`. -/
theorem c8_witness :
    (createStyledWorkbook [[Scalar.str "abcdefghijklmn"]] ["valor"]
      "F").widths.getD 0 0 = 16 :=
  (c8_column_width [[Scalar.str "abcdefghijklmn"]] ["valor"] "F" 0
    (by decide) (by decide)).trans (by decide)

end Franja
